import Mathlib

/-!
# Verification of the Luwio-Routing locale-aware route resolution engine

Shallow embedding of `src/src/domain/index.tsx` (class `LuwioRouter`).

JS strings are modelled as their character sequences (`List Char`, abbreviated
`Str`); a Lean string literal `s` denotes the JS string with characters
`s.data`.  The JS string operations the source uses translate to the
corresponding structural list operations:

* `a + b` (concatenation)            ↦  `a ++ b`
* `s === t` / `s !== t`              ↦  `s == t` / decidable equality
* `s.startsWith(p)`                  ↦  `jsStartsWith s p` (`p.isPrefixOf s`)
* `s.endsWith(p)`                    ↦  `jsEndsWith s p` (`p.isSuffixOf s`)
* `s.slice(1)`                       ↦  `s.drop 1`
* `s.slice(0, -1)`                   ↦  `s.dropLast`
* `language.toString()` on a string  ↦  identity (dropped)

The underlying router engine (`@tanstack/react-router`) is an external
collaborator; the parts of its contract the domain code relies on are modelled
from the spec (see `routesByPath` below).
-/

/-- A JS string, modelled as its character sequence. -/
abbrev Str := List Char

/-- JS `s.startsWith(p)`. -/
def jsStartsWith (s p : Str) : Bool := p.isPrefixOf s

/-- JS `s.endsWith(p)`. -/
def jsEndsWith (s p : Str) : Bool := p.isSuffixOf s

/-- `RouteLocaleI`: one locale entry `(definition key, language, raw path)`. -/
structure RouteLocaleI where
  definition : Str
  language : Str
  path : Str
deriving DecidableEq

/-- `LocaleAwareRouteConfigI`.  The `definitions` record maps keys to render
payloads; the payloads (`component`) are opaque to the resolution logic (the
source only tests presence, `definitions[key] ?? null`), so we keep the list
of keys that have a definition.  The `root` route is engine data and carries
no resolution logic, so it is omitted. -/
structure LocaleAwareRouteConfigI where
  definitions : List Str
  routes : List RouteLocaleI
  defaultLanguage : Str
  supportedLanguages : List Str

namespace LuwioRouter

variable (cfg : LocaleAwareRouteConfigI)

/-- `LuwioRouter._buildPath(language, path)` (the config's `defaultLanguage`
is passed explicitly).  Source:

    const defaultLng = this._config.defaultLanguage ?? "";
    const languageSafePath = path === "/" ? "" : path;
    return language !== defaultLng ? "/" + language + languageSafePath : path;

`defaultLanguage` is a string in `LocaleAwareRouteConfigI`, so `?? ""` is a
no-op. -/
def _buildPath (defaultLanguage language path : Str) : Str :=
  let defaultLng : Str := defaultLanguage
  let languageSafePath : Str := if path = "/".data then [] else path
  if language ≠ defaultLng then "/".data ++ language ++ languageSafePath else path

/-- One step of the constructor's compilation map (`LuwioRouter.constructor`):
an entry is dropped (`none`) when its key has no definition or its language is
unsupported; otherwise a concrete route is registered under the path built by
`_buildPath`.  We represent the created route by that concrete path. -/
def compileEntry (route : RouteLocaleI) : Option Str :=
  if !(cfg.definitions.contains route.definition) then none
  else if !(cfg.supportedLanguages.contains route.language) then none
  else some (_buildPath cfg.defaultLanguage route.language route.path)

/-- The ordered list of concrete paths the constructor registers with the
engine (`this._config.routes.map(...).filter(route => route !== null)`). -/
def compiledPaths : List Str :=
  cfg.routes.filterMap (compileEntry cfg)

/-- Modelled from the spec (§6, underlying router engine contract): the engine
indexes every registered route by its concrete path (`this._router.routesByPath`)
and a registered route's `fullPath` is the concrete path it was registered
under.  A route object is represented by its `fullPath`. -/
def routesByPath (p : Str) : Option Str :=
  if (compiledPaths cfg).contains p then some p else none

/-- `LuwioRouter._route(key, language)`.  Source:

    const definition = this._config.definitions[key] ?? null;
    if (!definition) return null;
    const route = this._config.routes.find(
      (route) => route.language === language && route.definition === key);
    if (!route) return null;
    const path = this._buildPath(language, route.path);
    return this._router.routesByPath[path] ?? null;
-/
def _route (key language : Str) : Option Str :=
  if !(cfg.definitions.contains key) then none
  else
    match cfg.routes.find? (fun route => route.language == language && route.definition == key) with
    | none => none
    | some route => routesByPath cfg (_buildPath cfg.defaultLanguage language route.path)

/-- `LuwioRouter.path(key, language)`: the resolved route's `fullPath`, or
`""` when `_route` is `null`.  (The source's extra
`this._router.buildLocation({to: route.fullPath})` call discards its result
and has no bearing on the returned value.) -/
def path (key language : Str) : Str :=
  match _route cfg key language with
  | none => "".data
  | some route => route

/-- `LuwioRouter.hasRoute(key, language)`: `!!this._route(key, language)`. -/
def hasRoute (key language : Str) : Bool :=
  (_route cfg key language).isSome

/-- `LuwioRouter.isActive(key, language)`.  The engine's current location is
external state; its `pathname` is passed explicitly as `currentPathname`.
Source: if the route resolves, `currentLocation.pathname === route.fullPath`,
else `false`. -/
def isActive (currentPathname key language : Str) : Bool :=
  match _route cfg key language with
  | some route => currentPathname == route
  | none => false

/-- `LuwioRouter.href({key, language})` with no query/params/hash (the claims
under verification use only the route selector; query/params/hash are opaque
engine data).  Source: `""` when `_route` is `null`, otherwise
`this._router.buildLocation({to: route.fullPath}).href`.  Modelled from the
spec (§6(c)) for the engine part: building a location from a plain path yields
that path as the `href`. -/
def href (key language : Str) : Str :=
  match _route cfg key language with
  | none => "".data
  | some route => route

/-- `LuwioRouter.absolute`'s `strippedHref` local:
`href.startsWith("/") ? href.slice(1) : href`. -/
def strippedHref (h : Str) : Str :=
  if jsStartsWith h ("/".data) then h.drop 1 else h

/-- `LuwioRouter.absolute`'s `strippedBaseUrl` local:
`baseUrl.endsWith("/") ? baseUrl.slice(0, -1) : baseUrl`. -/
def strippedBaseUrl (b : Str) : Str :=
  if jsEndsWith b ("/".data) then b.dropLast else b

/-- `LuwioRouter.absolute({baseUrl, key, language})`:
`` `${strippedBaseUrl}/${strippedHref}` ``. -/
def absolute (baseUrl key language : Str) : Str :=
  strippedBaseUrl baseUrl ++ "/".data ++ strippedHref (href cfg key language)

/-- One invocation of the underlying engine's navigation primitive
(`this._router.navigate(options)`): the resolved `to` full path and, when a
`from` selector was supplied, the resolved `from` full path.  The passthrough
options (query/params/hash/method/state) are opaque engine data and carry no
resolution logic. -/
structure EngineNavigateCall where
  toFullPath : Str
  fromFullPath : Option Str
deriving DecidableEq

/-- `LuwioRouter.navigate({to, from?})`: the settled result (rejection message
or success) paired with the list of engine navigation invocations the call
performed.  Source: resolve `to`, rejecting with
`Route (to) for key "${to.key}" and language "${to.language}" not found.`
when it is `null`; then resolve `from` when supplied, rejecting with the
analogous `(from)` message; finally delegate to `this._router.navigate`. -/
def navigate (toKey toLanguage : Str) (fromSel : Option (Str × Str)) :
    Except Str Unit × List EngineNavigateCall :=
  match _route cfg toKey toLanguage with
  | none =>
    (Except.error ("Route (to) for key \"".data ++ toKey ++
      "\" and language \"".data ++ toLanguage ++ "\" not found.".data), [])
  | some toRoute =>
    match fromSel with
    | some (fromKey, fromLanguage) =>
      match _route cfg fromKey fromLanguage with
      | none =>
        (Except.error ("Route (from) for key \"".data ++ fromKey ++
          "\" and language \"".data ++ fromLanguage ++ "\" not found.".data), [])
      | some fromRoute => (Except.ok (), [⟨toRoute, some fromRoute⟩])
    | none => (Except.ok (), [⟨toRoute, none⟩])

end LuwioRouter

/-- Scenario A configuration from the spec (§8): definitions `home`, `about`;
locales `(home,en,"/"), (home,be,"/"), (about,en,"/about"), (about,be,"/over-ons")`;
default `en`; supported `[en, be]`. -/
def scenarioA : LocaleAwareRouteConfigI :=
  { definitions := ["home".data, "about".data]
  , routes :=
      [ ⟨"home".data, "en".data, "/".data⟩
      , ⟨"home".data, "be".data, "/".data⟩
      , ⟨"about".data, "en".data, "/about".data⟩
      , ⟨"about".data, "be".data, "/over-ons".data⟩ ]
  , defaultLanguage := "en".data
  , supportedLanguages := ["en".data, "be".data] }

/-- A configuration with two locale entries whose compiled concrete paths
collide: `(home, fr, "/x")` is dropped at compile time (its language `fr` —
also the default — is unsupported), while the kept entry `(about, x, "/")`
compiles to `"/x"`, the very path the dropped entry's resolution rebuilds. -/
def cfgCollision : LocaleAwareRouteConfigI :=
  { definitions := ["home".data, "about".data]
  , routes :=
      [ ⟨"home".data, "fr".data, "/x".data⟩
      , ⟨"about".data, "x".data, "/".data⟩ ]
  , defaultLanguage := "fr".data
  , supportedLanguages := ["x".data] }

/-- A configuration whose only locale entry has the (unsupported) default
language, so everything is dropped at compile time. -/
def cfgDrop : LocaleAwareRouteConfigI :=
  { definitions := ["home".data]
  , routes := [⟨"home".data, "fr".data, "/a".data⟩]
  , defaultLanguage := "fr".data
  , supportedLanguages := ["en".data] }

/-- A configuration with two locale entries for the same `(key, language)`
pair and different raw paths, to exercise the first-match tie-break. -/
def cfgDup : LocaleAwareRouteConfigI :=
  { definitions := ["home".data]
  , routes :=
      [ ⟨"home".data, "en".data, "/first".data⟩
      , ⟨"home".data, "en".data, "/second".data⟩ ]
  , defaultLanguage := "en".data
  , supportedLanguages := ["en".data] }

/-! ## Helper lemmas -/

theorem data_slash : "/".data = ['/'] := rfl

theorem data_dslash : "//".data = ['/', '/'] := rfl

theorem data_nil : "".data = ([] : Str) := rfl

theorem hasRoute_path_of_route_none (cfg : LocaleAwareRouteConfigI) (key language : Str)
    (h : LuwioRouter._route cfg key language = none) :
    LuwioRouter.hasRoute cfg key language = false ∧
      LuwioRouter.path cfg key language = "".data := by
  refine ⟨?_, ?_⟩ <;> simp [LuwioRouter.hasRoute, LuwioRouter.path, h]

theorem contains_compiledPaths_iff (cfg : LocaleAwareRouteConfigI) (p : Str) :
    (LuwioRouter.compiledPaths cfg).contains p = true ↔
      ∃ r ∈ cfg.routes, LuwioRouter.compileEntry cfg r = some p := by
  rw [LuwioRouter.compiledPaths]
  constructor
  · intro h
    exact List.mem_filterMap.mp (List.elem_iff.mp h)
  · intro h
    exact List.elem_iff.mpr (List.mem_filterMap.mpr h)

theorem _route_of_find (cfg : LocaleAwareRouteConfigI) (key language : Str) (e : RouteLocaleI)
    (hfind : cfg.routes.find?
      (fun route => route.language == language && route.definition == key) = some e)
    (hd : cfg.definitions.contains key = true)
    (hs : cfg.supportedLanguages.contains language = true) :
    LuwioRouter._route cfg key language =
      some (LuwioRouter._buildPath cfg.defaultLanguage language e.path) := by
  have hpred := List.find?_some hfind
  rw [Bool.and_eq_true, beq_iff_eq, beq_iff_eq] at hpred
  obtain ⟨hel, hek⟩ := hpred
  have hmem := List.mem_of_find?_eq_some hfind
  have hce : LuwioRouter.compileEntry cfg e =
      some (LuwioRouter._buildPath cfg.defaultLanguage language e.path) := by
    rw [LuwioRouter.compileEntry, hek, hel, hd, hs]
    rfl
  have hcont : (LuwioRouter.compiledPaths cfg).contains
      (LuwioRouter._buildPath cfg.defaultLanguage language e.path) = true :=
    (contains_compiledPaths_iff cfg _).mpr ⟨e, hmem, hce⟩
  rw [LuwioRouter._route, hd]
  simp only [Bool.not_true, Bool.false_eq_true, if_false, hfind]
  rw [LuwioRouter.routesByPath, hcont]
  rfl

/-! ## Claims -/

/-- **C2** — For all strings `language`, `defaultLanguage` and `rawPath`, the
path builder returns `rawPath` unchanged when `language = defaultLanguage`,
and otherwise returns `"/" + language + rawPath`, except that a `rawPath` of
exactly `"/"` contributes the empty string, so a non-default language's root
route becomes `"/" + language` with no trailing slash. -/
theorem buildPath_prefix_rules (language defaultLanguage rawPath : Str) :
    (language = defaultLanguage →
      LuwioRouter._buildPath defaultLanguage language rawPath = rawPath) ∧
    (language ≠ defaultLanguage →
      LuwioRouter._buildPath defaultLanguage language rawPath =
        "/".data ++ language ++ (if rawPath = "/".data then [] else rawPath) ∧
      (rawPath = "/".data →
        LuwioRouter._buildPath defaultLanguage language rawPath = "/".data ++ language)) := by
  refine ⟨fun h => ?_, fun h => ⟨?_, fun hr => ?_⟩⟩
  · simp [LuwioRouter._buildPath, h]
  · simp [LuwioRouter._buildPath, h]
  · simp [LuwioRouter._buildPath, h, hr]

/-- Witness for `buildPath_prefix_rules` at concrete inputs: default-language
paths are unchanged, and a non-default root collapses to `"/" + language`. -/
theorem buildPath_prefix_rules_app :
    LuwioRouter._buildPath ("en".data) ("en".data) ("/a".data) = "/a".data ∧
    LuwioRouter._buildPath ("en".data) ("be".data) ("/".data) = "/".data ++ "be".data :=
  ⟨(buildPath_prefix_rules ("en".data) ("en".data) ("/a".data)).1 rfl,
   ((buildPath_prefix_rules ("be".data) ("en".data) ("/".data)).2 (by decide)).2 rfl⟩

/-- **C4** — A `navigate` call whose `to` selector (or, when supplied, whose
`from` selector) does not resolve rejects with an error message identifying
which side failed and naming the failing key and language. -/
theorem navigate_rejects_with_message (cfg : LocaleAwareRouteConfigI)
    (toKey toLanguage : Str) (fromSel : Option (Str × Str)) :
    (LuwioRouter._route cfg toKey toLanguage = none →
      LuwioRouter.navigate cfg toKey toLanguage fromSel =
        (Except.error ("Route (to) for key \"".data ++ toKey ++
          "\" and language \"".data ++ toLanguage ++ "\" not found.".data), [])) ∧
    (∀ fromKey fromLanguage : Str,
      fromSel = some (fromKey, fromLanguage) →
      (LuwioRouter._route cfg toKey toLanguage).isSome = true →
      LuwioRouter._route cfg fromKey fromLanguage = none →
      LuwioRouter.navigate cfg toKey toLanguage fromSel =
        (Except.error ("Route (from) for key \"".data ++ fromKey ++
          "\" and language \"".data ++ fromLanguage ++ "\" not found.".data), [])) := by
  constructor
  · intro h
    simp [LuwioRouter.navigate, h]
  · intro fromKey fromLanguage hsel hto hfrom
    subst hsel
    cases hr : LuwioRouter._route cfg toKey toLanguage with
    | none => rw [hr] at hto; simp at hto
    | some toRoute => simp [LuwioRouter.navigate, hr, hfrom]

/-- Witness for `navigate_rejects_with_message` (Scenario C): navigating to
the unregistered key `missing` in language `en` rejects with a message naming
the `to` side, the key and the language. -/
theorem navigate_rejects_with_message_app :
    LuwioRouter.navigate scenarioA ("missing".data) ("en".data) none =
      (Except.error ("Route (to) for key \"".data ++ "missing".data ++
        "\" and language \"".data ++ "en".data ++ "\" not found.".data), []) :=
  (navigate_rejects_with_message scenarioA ("missing".data) ("en".data) none).1 (by decide)

/-- **C5** — A `navigate` call that rejects performs no invocation of the
underlying engine's navigation primitive: the engine-call list of a rejected
`navigate` is empty. -/
theorem rejected_navigate_skips_engine (cfg : LocaleAwareRouteConfigI)
    (toKey toLanguage : Str) (fromSel : Option (Str × Str)) (msg : Str)
    (h : (LuwioRouter.navigate cfg toKey toLanguage fromSel).1 = Except.error msg) :
    (LuwioRouter.navigate cfg toKey toLanguage fromSel).2 = [] := by
  cases hto : LuwioRouter._route cfg toKey toLanguage with
  | none => simp [LuwioRouter.navigate, hto]
  | some toRoute =>
    cases fromSel with
    | none => simp [LuwioRouter.navigate, hto] at h
    | some fromPair =>
      obtain ⟨fromKey, fromLanguage⟩ := fromPair
      cases hfrom : LuwioRouter._route cfg fromKey fromLanguage with
      | none => simp [LuwioRouter.navigate, hto, hfrom]
      | some fromRoute => simp [LuwioRouter.navigate, hto, hfrom] at h

/-- Witness for `rejected_navigate_skips_engine`: the rejected Scenario C
navigation reaches the engine zero times. -/
theorem rejected_navigate_skips_engine_app :
    (LuwioRouter.navigate scenarioA ("missing".data) ("en".data) none).2 = [] :=
  rejected_navigate_skips_engine scenarioA ("missing".data) ("en".data) none
    ("Route (to) for key \"".data ++ "missing".data ++
      "\" and language \"".data ++ "en".data ++ "\" not found.".data) (by rfl)

/-- **C1** (corrected) — counterexample to the claim as stated: in
`cfgCollision` the pair `(home, fr)` has its language `fr` outside
`supportedLanguages`, yet `hasRoute` is `true` and `path` is non-empty,
because the dropped entry's rebuilt concrete path `"/x"` coincides with the
compiled path of the kept entry `(about, x, "/")`. -/
theorem unsupported_language_can_still_resolve :
    cfgCollision.supportedLanguages.contains ("fr".data) = false ∧
    cfgCollision.definitions.contains ("home".data) = true ∧
    LuwioRouter.hasRoute cfgCollision ("home".data) ("fr".data) = true ∧
    LuwioRouter.path cfgCollision ("home".data) ("fr".data) = "/x".data := by
  decide

/-- **C1** (amended) — For every configuration and `(key, language)` pair:
if the key has no definition, or no locale entry matches the pair, then
`hasRoute` is `false` and `path` is `""`; if the first matching entry's
language is not in `supportedLanguages`, the same holds provided no entry
kept at compile time compiled to the concrete path the resolver rebuilds for
that entry (otherwise the path-keyed index can return that other route). -/
theorem resolver_notFound_cases (cfg : LocaleAwareRouteConfigI) (key language : Str) :
    (cfg.definitions.contains key = false →
      LuwioRouter.hasRoute cfg key language = false ∧
        LuwioRouter.path cfg key language = "".data) ∧
    (cfg.routes.find?
        (fun route => route.language == language && route.definition == key) = none →
      LuwioRouter.hasRoute cfg key language = false ∧
        LuwioRouter.path cfg key language = "".data) ∧
    (∀ e : RouteLocaleI,
      cfg.routes.find?
        (fun route => route.language == language && route.definition == key) = some e →
      cfg.supportedLanguages.contains language = false →
      (∀ r ∈ cfg.routes, LuwioRouter.compileEntry cfg r ≠
        some (LuwioRouter._buildPath cfg.defaultLanguage language e.path)) →
      LuwioRouter.hasRoute cfg key language = false ∧
        LuwioRouter.path cfg key language = "".data) := by
  refine ⟨fun h => ?_, fun h => ?_, fun e hfind _ hnc => ?_⟩
  · have hnm : key ∉ cfg.definitions := by simpa using h
    exact hasRoute_path_of_route_none cfg key language (by simp [LuwioRouter._route, hnm])
  · by_cases hd : key ∈ cfg.definitions
    · exact hasRoute_path_of_route_none cfg key language (by simp [LuwioRouter._route, hd, h])
    · exact hasRoute_path_of_route_none cfg key language (by simp [LuwioRouter._route, hd])
  · have hnmem : LuwioRouter._buildPath cfg.defaultLanguage language e.path ∉
        LuwioRouter.compiledPaths cfg := by
      intro hc
      obtain ⟨r, hrmem, hrce⟩ := (contains_compiledPaths_iff cfg _).mp (by simpa using hc)
      exact hnc r hrmem hrce
    by_cases hd : key ∈ cfg.definitions
    · exact hasRoute_path_of_route_none cfg key language
        (by simp [LuwioRouter._route, hd, hfind, LuwioRouter.routesByPath, hnmem])
    · exact hasRoute_path_of_route_none cfg key language (by simp [LuwioRouter._route, hd])

/-- Witness for `resolver_notFound_cases`: in `cfgDrop`, the entry
`(home, fr)` is found but `fr` is unsupported and nothing else was compiled,
so the pair does not resolve. -/
theorem resolver_notFound_cases_app :
    LuwioRouter.hasRoute cfgDrop ("home".data) ("fr".data) = false ∧
    LuwioRouter.path cfgDrop ("home".data) ("fr".data) = "".data :=
  (resolver_notFound_cases cfgDrop ("home".data) ("fr".data)).2.2
    ⟨"home".data, "fr".data, "/a".data⟩ (by decide) (by decide) (by decide)

/-- **C3** — For every `(key, language)` pair that appears as a locale entry,
where the key has a definition and the language is supported, `hasRoute` is
`true` and `path` equals the path builder's output for the matching entry's
language and raw path. -/
theorem present_entry_resolves (cfg : LocaleAwareRouteConfigI) (key language : Str)
    (e : RouteLocaleI) (hmem : e ∈ cfg.routes)
    (hk : e.definition = key) (hl : e.language = language)
    (hd : cfg.definitions.contains key = true)
    (hs : cfg.supportedLanguages.contains language = true) :
    LuwioRouter.hasRoute cfg key language = true ∧
    ∃ r ∈ cfg.routes, r.definition = key ∧ r.language = language ∧
      LuwioRouter.path cfg key language =
        LuwioRouter._buildPath cfg.defaultLanguage language r.path := by
  have hsome : (cfg.routes.find?
      (fun route => route.language == language && route.definition == key)).isSome :=
    List.find?_isSome.mpr ⟨e, hmem, by simp [hk, hl]⟩
  obtain ⟨r0, hfind⟩ := Option.isSome_iff_exists.mp hsome
  have hpred := List.find?_some hfind
  rw [Bool.and_eq_true, beq_iff_eq, beq_iff_eq] at hpred
  have hroute := _route_of_find cfg key language r0 hfind hd hs
  refine ⟨by simp [LuwioRouter.hasRoute, hroute],
    ⟨r0, List.mem_of_find?_eq_some hfind, hpred.2, hpred.1,
      by simp [LuwioRouter.path, hroute]⟩⟩

/-- Witness for `present_entry_resolves` (part of Scenario A): the entry
`(about, be, "/over-ons")` resolves, and `path` is the builder's output. -/
theorem present_entry_resolves_app :
    LuwioRouter.hasRoute scenarioA ("about".data) ("be".data) = true ∧
    ∃ r ∈ scenarioA.routes, r.definition = "about".data ∧ r.language = "be".data ∧
      LuwioRouter.path scenarioA ("about".data) ("be".data) =
        LuwioRouter._buildPath scenarioA.defaultLanguage ("be".data) r.path :=
  present_entry_resolves scenarioA ("about".data) ("be".data)
    ⟨"about".data, "be".data, "/over-ons".data⟩ (by decide) rfl rfl (by decide) (by decide)

/-- **C8** — For every configuration, browser location (a pathname, which in
a browser always starts with `"/"`) and `(key, language)` pair, `isActive` is
`true` iff the pathname equals `path(key, language)`; in particular it is
`false` whenever the pair does not resolve. -/
theorem isActive_iff_pathname_eq_path (cfg : LocaleAwareRouteConfigI)
    (currentPathname key language : Str)
    (hloc : jsStartsWith currentPathname ("/".data) = true) :
    (LuwioRouter.isActive cfg currentPathname key language = true ↔
      currentPathname = LuwioRouter.path cfg key language) ∧
    (LuwioRouter._route cfg key language = none →
      LuwioRouter.isActive cfg currentPathname key language = false) := by
  have hne : currentPathname ≠ "".data := by
    intro h
    rw [h] at hloc
    exact absurd hloc (by decide)
  constructor
  · cases hr : LuwioRouter._route cfg key language with
    | none =>
      simp only [LuwioRouter.isActive, LuwioRouter.path, hr]
      simp [hne]
    | some route =>
      simp only [LuwioRouter.isActive, LuwioRouter.path, hr]
      simp
  · intro h
    simp [LuwioRouter.isActive, h]

/-- Witness for `isActive_iff_pathname_eq_path`: with current pathname `/be`,
the Scenario A route `(home, be)` is active. -/
theorem isActive_iff_pathname_eq_path_app :
    LuwioRouter.isActive scenarioA ("/be".data) ("home".data) ("be".data) = true :=
  ((isActive_iff_pathname_eq_path scenarioA ("/be".data) ("home".data) ("be".data)
    (by decide)).1).mpr (by decide)

/-- **C9** — When a configuration contains several locale entries for the same
`(key, language)` pair, resolution uses the first matching entry in routes
order: if `e` is the first entry matching `(key, language)`, its key has a
definition and its language is supported, then the pair resolves and `path`
is built from `e`'s raw path. -/
theorem duplicate_entries_first_match_wins (cfg : LocaleAwareRouteConfigI)
    (key language : Str) (pre post : List RouteLocaleI) (e : RouteLocaleI)
    (hroutes : cfg.routes = pre ++ e :: post)
    (hk : e.definition = key) (hl : e.language = language)
    (hpre : ∀ r ∈ pre, ¬(r.definition = key ∧ r.language = language))
    (hd : cfg.definitions.contains key = true)
    (hs : cfg.supportedLanguages.contains language = true) :
    LuwioRouter.hasRoute cfg key language = true ∧
    LuwioRouter.path cfg key language =
      LuwioRouter._buildPath cfg.defaultLanguage language e.path := by
  have hfind : cfg.routes.find?
      (fun route => route.language == language && route.definition == key) = some e := by
    rw [hroutes, List.find?_append]
    have h1 : pre.find?
        (fun route => route.language == language && route.definition == key) = none := by
      rw [List.find?_eq_none]
      intro r hr hcontra
      rw [Bool.and_eq_true, beq_iff_eq, beq_iff_eq] at hcontra
      exact hpre r hr ⟨hcontra.2, hcontra.1⟩
    rw [h1, Option.none_or]
    exact List.find?_cons_of_pos _ (by simp [hk, hl])
  have hroute := _route_of_find cfg key language e hfind hd hs
  exact ⟨by simp [LuwioRouter.hasRoute, hroute], by simp [LuwioRouter.path, hroute]⟩

/-- Witness for `duplicate_entries_first_match_wins`: in `cfgDup`, both
entries match `(home, en)` and resolution uses the first one (`"/first"`). -/
theorem duplicate_entries_first_match_wins_app :
    LuwioRouter.hasRoute cfgDup ("home".data) ("en".data) = true ∧
    LuwioRouter.path cfgDup ("home".data) ("en".data) =
      LuwioRouter._buildPath cfgDup.defaultLanguage ("en".data) ("/first".data) :=
  duplicate_entries_first_match_wins cfgDup ("home".data) ("en".data)
    [] [⟨"home".data, "en".data, "/second".data⟩]
    ⟨"home".data, "en".data, "/first".data⟩
    rfl rfl rfl (by simp) (by decide) (by decide)

/-- **C10** (corrected) — counterexample to the claim as stated: in
`cfgCollision` the default language `fr` is not in `supportedLanguages` and
the entry `(home, fr, "/x")` is indeed dropped at compile time, yet
`hasRoute(home, fr)` is `true` and `path(home, fr)` is `"/x"`, because the
kept entry `(about, x, "/")` compiled to the same concrete path `"/x"`. -/
theorem unsupported_default_can_still_resolve :
    cfgCollision.supportedLanguages.contains cfgCollision.defaultLanguage = false ∧
    LuwioRouter.compileEntry cfgCollision ⟨"home".data, "fr".data, "/x".data⟩ = none ∧
    LuwioRouter.hasRoute cfgCollision ("home".data) cfgCollision.defaultLanguage = true ∧
    LuwioRouter.path cfgCollision ("home".data) cfgCollision.defaultLanguage = "/x".data := by
  decide

/-- **C10** (amended) — For every configuration whose `defaultLanguage` is not
in `supportedLanguages`: every locale entry in the default language is dropped
at compile time, and the path builder leaves the default language's raw paths
unprefixed; consequently, for a key whose first matching default-language
entry rebuilds a concrete path that no compiled entry produced,
`hasRoute(key, defaultLanguage)` is `false` and `path(key, defaultLanguage)`
is `""`. -/
theorem unsupported_default_language_dropped (cfg : LocaleAwareRouteConfigI) (key : Str)
    (hd : cfg.supportedLanguages.contains cfg.defaultLanguage = false) :
    (∀ r ∈ cfg.routes, r.language = cfg.defaultLanguage →
      LuwioRouter.compileEntry cfg r = none) ∧
    (∀ rawPath : Str,
      LuwioRouter._buildPath cfg.defaultLanguage cfg.defaultLanguage rawPath = rawPath) ∧
    (∀ e : RouteLocaleI,
      cfg.routes.find? (fun route =>
        route.language == cfg.defaultLanguage && route.definition == key) = some e →
      (∀ r ∈ cfg.routes, LuwioRouter.compileEntry cfg r ≠
        some (LuwioRouter._buildPath cfg.defaultLanguage cfg.defaultLanguage e.path)) →
      LuwioRouter.hasRoute cfg key cfg.defaultLanguage = false ∧
        LuwioRouter.path cfg key cfg.defaultLanguage = "".data) := by
  refine ⟨fun r _ hlang => ?_, fun rawPath => ?_, fun e hfind hnc => ?_⟩
  · rw [LuwioRouter.compileEntry, hlang, hd]
    simp
  · simp [LuwioRouter._buildPath]
  · exact (resolver_notFound_cases cfg key cfg.defaultLanguage).2.2 e hfind hd hnc

/-- Witness for `unsupported_default_language_dropped`: in `cfgDrop` the
default language `fr` is unsupported, so `(home, fr)` does not resolve. -/
theorem unsupported_default_language_dropped_app :
    LuwioRouter.hasRoute cfgDrop ("home".data) cfgDrop.defaultLanguage = false ∧
    LuwioRouter.path cfgDrop ("home".data) cfgDrop.defaultLanguage = "".data :=
  (unsupported_default_language_dropped cfgDrop ("home".data) (by decide)).2.2
    ⟨"home".data, "fr".data, "/a".data⟩ (by decide) (by decide)

theorem stripLead_core (t : Str) (h : List.isPrefixOf ['/', '/'] t = false) :
    List.isPrefixOf ['/'] (if List.isPrefixOf ['/'] t then t.drop 1 else t) = false := by
  cases t with
  | nil => simp
  | cons c t' =>
    by_cases hc : c = '/'
    · subst hc
      have hcond : List.isPrefixOf ['/'] ('/' :: t') = true := by simp
      rw [if_pos hcond]
      simp only [List.drop_succ_cons, List.drop_zero]
      simpa using h
    · have hcond : List.isPrefixOf ['/'] (c :: t') = false := by
        simp [List.isPrefixOf_cons₂]
        exact fun h' => hc h'.symm
      rw [if_neg (by simp [hcond])]
      exact hcond

theorem strippedHref_no_leading_slash (t : Str) (h : jsStartsWith t ("//".data) = false) :
    jsStartsWith (LuwioRouter.strippedHref t) ("/".data) = false :=
  stripLead_core t h

theorem dropLast_reverse_drop (l : Str) : l.dropLast.reverse = l.reverse.drop 1 := by
  rcases List.eq_nil_or_concat l with rfl | ⟨L, a, rfl⟩
  · rfl
  · simp [List.concat_eq_append]

theorem strippedBaseUrl_no_trailing_slash (b : Str) (h : jsEndsWith b ("//".data) = false) :
    jsEndsWith (LuwioRouter.strippedBaseUrl b) ("/".data) = false := by
  have core := stripLead_core b.reverse h
  show List.isPrefixOf ['/'] (LuwioRouter.strippedBaseUrl b).reverse = false
  rw [LuwioRouter.strippedBaseUrl]
  by_cases hc : jsEndsWith b ("/".data) = true
  · rw [if_pos hc, dropLast_reverse_drop]
    have hc' : List.isPrefixOf ['/'] b.reverse = true := hc
    rw [if_pos hc'] at core
    exact core
  · rw [if_neg hc]
    have hc' : ¬ List.isPrefixOf ['/'] b.reverse = true := hc
    rw [if_neg hc'] at core
    exact core

theorem dropLast_append_slash (b : Str) (h : jsEndsWith b ("/".data) = true) :
    b.dropLast ++ "/".data = b := by
  rcases List.eq_nil_or_concat b with rfl | ⟨L, a, rfl⟩
  · exact absurd h (by decide)
  · have h' : List.isPrefixOf ['/'] (L.concat a).reverse = true := h
    rw [List.concat_eq_append, List.reverse_append] at h'
    simp at h'
    rw [List.concat_eq_append, List.dropLast_concat, data_slash, h']

/-- **C6** (corrected) — counterexample to the claim as stated: with the
resolvable Scenario A pair `(about, en)` and a `baseUrl` ending in `"//"`,
stripping exactly one trailing slash leaves a slash before the join, so
`absolute` produces a double slash at the join point. -/
theorem absolute_double_slash_at_join :
    LuwioRouter.hasRoute scenarioA ("about".data) ("en".data) = true ∧
    jsEndsWith (LuwioRouter.strippedBaseUrl ("b//".data)) ("/".data) = true ∧
    LuwioRouter.absolute scenarioA ("b//".data) ("about".data) ("en".data) =
      "b//about".data := by
  decide

/-- **C6** (amended) — For every `baseUrl` not ending in `"//"` and every
`(key, language)` pair whose `href` does not start with `"//"`, `absolute`
joins the stripped base URL and the stripped href with a single `"/"`, and
neither stripped side contributes a further slash at the join point, so the
join contains exactly one slash. -/
theorem absolute_single_slash_join (cfg : LocaleAwareRouteConfigI)
    (baseUrl key language : Str)
    (hb : jsEndsWith baseUrl ("//".data) = false)
    (hh : jsStartsWith (LuwioRouter.href cfg key language) ("//".data) = false) :
    LuwioRouter.absolute cfg baseUrl key language =
      LuwioRouter.strippedBaseUrl baseUrl ++ "/".data ++
        LuwioRouter.strippedHref (LuwioRouter.href cfg key language) ∧
    jsEndsWith (LuwioRouter.strippedBaseUrl baseUrl) ("/".data) = false ∧
    jsStartsWith (LuwioRouter.strippedHref (LuwioRouter.href cfg key language))
      ("/".data) = false :=
  ⟨rfl, strippedBaseUrl_no_trailing_slash baseUrl hb,
    strippedHref_no_leading_slash (LuwioRouter.href cfg key language) hh⟩

/-- Witness for `absolute_single_slash_join` (Scenario D): joining
`https://x.com/` with the Scenario A href `/be/over-ons` puts exactly one
slash at the join point. -/
theorem absolute_single_slash_join_app :
    LuwioRouter.absolute scenarioA ("https://x.com/".data) ("about".data) ("be".data) =
      LuwioRouter.strippedBaseUrl ("https://x.com/".data) ++ "/".data ++
        LuwioRouter.strippedHref (LuwioRouter.href scenarioA ("about".data) ("be".data)) ∧
    jsEndsWith (LuwioRouter.strippedBaseUrl ("https://x.com/".data)) ("/".data) = false ∧
    jsStartsWith (LuwioRouter.strippedHref
      (LuwioRouter.href scenarioA ("about".data) ("be".data))) ("/".data) = false :=
  absolute_single_slash_join scenarioA ("https://x.com/".data) ("about".data) ("be".data)
    (by decide) (by decide)

/-- **C7** (corrected) — counterexample to the claim as stated: for the
unresolvable pair `(missing, en)` and `baseUrl` `b/` (which ends in a slash),
`absolute` yields `b/`, not `baseUrl + "/"` = `b//`. -/
theorem absolute_notFound_not_base_slash :
    LuwioRouter._route scenarioA ("missing".data) ("en".data) = none ∧
    LuwioRouter.absolute scenarioA ("b/".data) ("missing".data) ("en".data) = "b/".data ∧
    LuwioRouter.absolute scenarioA ("b/".data) ("missing".data) ("en".data) ≠
      "b/".data ++ "/".data := by
  decide

/-- **C7** (amended) — For every `baseUrl` and every `(key, language)` pair
that does not resolve (so `href` is `""`), `absolute` yields `baseUrl + "/"`
when `baseUrl` does not end in `"/"`, and `baseUrl` unchanged when it does
(one trailing slash is stripped before the separating slash is added). -/
theorem absolute_notFound_result (cfg : LocaleAwareRouteConfigI)
    (baseUrl key language : Str)
    (h : LuwioRouter._route cfg key language = none) :
    LuwioRouter.absolute cfg baseUrl key language =
      if jsEndsWith baseUrl ("/".data) then baseUrl else baseUrl ++ "/".data := by
  have hhref : LuwioRouter.href cfg key language = "".data := by
    simp [LuwioRouter.href, h]
  rw [LuwioRouter.absolute, hhref]
  have hsh : LuwioRouter.strippedHref ("".data) = [] := rfl
  rw [hsh, List.append_nil]
  rw [LuwioRouter.strippedBaseUrl]
  by_cases hc : jsEndsWith baseUrl ("/".data) = true
  · rw [if_pos hc, if_pos hc, dropLast_append_slash baseUrl hc]
  · rw [if_neg hc, if_neg hc]

/-- Witness for `absolute_notFound_result`: with the unresolvable Scenario A
pair `(missing, en)` and the slash-terminated base `b/`, `absolute` returns
`b/` unchanged. -/
theorem absolute_notFound_result_app :
    LuwioRouter.absolute scenarioA ("b/".data) ("missing".data) ("en".data) = "b/".data := by
  have h := absolute_notFound_result scenarioA ("b/".data) ("missing".data) ("en".data)
    (by decide)
  rw [h]
  decide
